import Mathlib

set_option maxHeartbeats 1000000

/-!
Verification development for the `react-native-image-description` bridge: a
shallow embedding of the two native modules (`ios/ImageDescriptionModule.m`,
`android/.../ImageDescriptionModule.kt`) and of the TypeScript facade
(`src/index.tsx`), with theorems about the label-merge engine, the
model-download lifecycle and the error contract.

Confidences are modelled as rationals, identifiers and messages as strings.
-/

/-- A native promise settlement: resolved with a value, or rejected with an
error code and a message (React Native `reject(code, message)`). -/
inductive NativeOutcome (α : Type) where
  | resolved (value : α)
  | rejected (code : String) (message : String)
deriving DecidableEq

/-- The JavaScript-side `ClassificationResult`: `success`, `labels` as
identifier/confidence pairs in ranked order (the `rank`/`index` of a label is
its list position), and an optional `error` string. -/
structure ClassificationResult where
  success : Bool
  labels : List (String × ℚ)
  error : Option String
deriving DecidableEq

/-- The JavaScript-side `DescriptionResult`. -/
structure DescriptionResult where
  success : Bool
  description : String
  error : Option String
  modelStatus : Option String
deriving DecidableEq

/-- External transport contract of the React Native bridge: a native rejection
`(code, message)` surfaces in JavaScript as an `Error` whose `message` is the
rejection message; the code is attached as a separate `code` field and is not
part of the message text. -/
def bridgeErrorMessage (_code message : String) : String := message

/-- `startsWithChars pat s`: `pat` is an initial segment of `s`. -/
def startsWithChars : List Char → List Char → Bool
  | [], _ => true
  | _ :: _, [] => false
  | a :: as, b :: bs => a == b && startsWithChars as bs

/-- `occursIn pat s`: `pat` occurs as a contiguous segment of `s`. -/
def occursIn (pat : List Char) : List Char → Bool
  | [] => startsWithChars pat []
  | c :: rest => startsWithChars pat (c :: rest) || occursIn pat rest

/-- A string mentions `sub` when `sub` occurs contiguously in it. -/
def mentions (sub s : String) : Bool := occursIn sub.data s.data

namespace Ios

/-- `labelsDict[identifier] = confidence` on the `NSMutableDictionary` of
`classifyImage`, modelled as an association list: overwrite the existing entry
or append a new one. -/
def dictSet (d : List (String × ℚ)) (identifier : String) (confidence : ℚ) :
    List (String × ℚ) :=
  if d.any (fun p => p.1 == identifier) then
    d.map (fun p => if p.1 == identifier then (identifier, confidence) else p)
  else d ++ [(identifier, confidence)]

/-- `labelsDict[identifier]` lookup. -/
def dictGet (d : List (String × ℚ)) (identifier : String) : Option ℚ :=
  (d.find? (fun p => p.1 == identifier)).map Prod.snd

/-- The Vision loop of `classifyImage` (ImageDescriptionModule.m, lines
116-134): observations with confidence strictly below `minimumConfidence` are
skipped; the rest pass the opaque `hasMinimumPrecision:forRecall:` provider
check (parameter `meets`) and are stored into `labelsDict`. -/
def visionPhase (minimumConfidence : ℚ) (meets : String → ℚ → Bool)
    (observations : List (String × ℚ)) : List (String × ℚ) :=
  observations.foldl
    (fun d o =>
      if o.2 < minimumConfidence then d
      else if meets o.1 o.2 then dictSet d o.1 o.2 else d)
    []

/-- The ML Kit merge loop of `classifyImage` (lines 166-187): an identifier
already present keeps the strictly higher of the two confidences; a new
identifier is inserted. -/
def mlkitMergePhase (d0 : List (String × ℚ)) (mlkitLabels : List (String × ℚ)) :
    List (String × ℚ) :=
  mlkitLabels.foldl
    (fun d l =>
      match dictGet d l.1 with
      | some existing => if existing < l.2 then dictSet d l.1 l.2 else d
      | none => dictSet d l.1 l.2)
    d0

/-- The merged `labelsDict` of `classifyImage`: the Vision source first, then
(when `iosUseMlKit` is not false) the ML Kit source. The ML Kit labeler is
configured with `confidenceThreshold = minimumConfidence`, so its labels are
already thresholded by the provider (a hypothesis where theorems need it). -/
def mergedDict (minimumConfidence : ℚ) (meets : String → ℚ → Bool)
    (useMlKit : Bool) (vision mlkit : List (String × ℚ)) : List (String × ℚ) :=
  let d := visionPhase minimumConfidence meets vision
  if useMlKit then mlkitMergePhase d mlkit else d

/-- The comparator of the final sort (lines 206-212): `a` may precede `b`
exactly when `a`'s confidence is at least `b`'s; equal confidences compare the
same both ways (`NSOrderedSame`). -/
def confDesc (a b : String × ℚ) : Prop := b.2 ≤ a.2

instance : DecidableRel confDesc := fun a b => inferInstanceAs (Decidable (b.2 ≤ a.2))

instance : IsTotal (String × ℚ) confDesc := ⟨fun a b => le_total b.2 a.2⟩

instance : IsTrans (String × ℚ) confDesc := ⟨fun _ _ _ h1 h2 => le_trans h2 h1⟩

/-- Lines 195-217 of `classifyImage`: the dictionary is enumerated (in an
order the platform does not specify - parameter `enum`), sorted by confidence
descending, and truncated to `maxResults` when that is positive. The
unspecified enumeration order of `NSDictionary` and the unspecified tie
behaviour of `sortUsingComparator` are both absorbed into `enum`: a stable
sort applied to an arbitrary permutation reaches exactly the
confidence-sorted orders the platform may produce. -/
def finalLabels (enum : List (String × ℚ)) (maxResults : Int) : List (String × ℚ) :=
  let sorted := enum.insertionSort confDesc
  if 0 < maxResults then sorted.take maxResults.toNat else sorted

/-- The possible settlements of the iOS `classifyImage` call: on image-load
failure, a rejection with code `image_load_failed` (lines 64-69); otherwise a
resolved success whose labels are `finalLabels` of some enumeration of the
merged dictionary. -/
def ClassifyResponse (imageLoads : Bool) (path : String) (minimumConfidence : ℚ)
    (meets : String → ℚ → Bool) (useMlKit : Bool)
    (vision mlkit : List (String × ℚ)) (maxResults : Int)
    (response : NativeOutcome ClassificationResult) : Prop :=
  if imageLoads then
    ∃ enum, enum.Perm (mergedDict minimumConfidence meets useMlKit vision mlkit) ∧
      response = .resolved { success := true, labels := finalLabels enum maxResults, error := none }
  else
    response = .rejected ("image_load_failed") ("Failed to load image from path: " ++ path)

/-- `describeImage` on iOS (lines 242-256): always resolves the fixed
not-supported result. -/
def describeImage : NativeOutcome DescriptionResult :=
  .resolved
    { success := false
      description := ""
      error := some ("Image description is not available on iOS. Use classifyImage() for classification labels.")
      modelStatus := some ("not_supported") }

end Ios

namespace Android

/-- Observed ML Kit GenAI `FeatureStatus` of the description model. -/
inductive FeatureStatus where
  | available
  | downloadable
  | downloading
  | unavailable
deriving DecidableEq

/-- The module's memoized provider handles (`imageLabeler`, `imageDescriber`):
a field is `true` when that handle has been constructed. -/
structure ModuleState where
  imageLabeler : Bool
  imageDescriber : Bool
deriving DecidableEq

/-- Effect of one native call: the provider-handle state afterwards, whether a
provider was actually queried (inference or status check), and the
settlement. -/
structure CallEffect (α : Type) where
  state : ModuleState
  providerQueried : Bool
  outcome : NativeOutcome α
deriving DecidableEq

/-- `ClassificationOptions` as read by the native modules; every field is
optional on the JavaScript side. -/
structure ClassificationOptions where
  minimumPrecision : Option ℚ := none
  recallThreshold : Option ℚ := none
  minimumConfidence : Option ℚ := none
  maxResults : Option Int := none
  confidenceThreshold : Option ℚ := none
  iosUseMlKit : Option Bool := none
deriving DecidableEq

/-- The labeler configuration value `classifyImage` actually uses
(ImageDescriptionModule.kt, lines 56-60): the `confidenceThreshold` option,
defaulting to 0.5. `minimumConfidence` is never read by the Android module. -/
def labelerThreshold (options : ClassificationOptions) : ℚ :=
  options.confidenceThreshold.getD (mkRat 1 2)

/-- `classifyImage` (lines 44-107). The bitmap is loaded first; on failure the
call rejects with code `image_load_failed`, no labeler is constructed and no
provider is queried. Otherwise the labeler is lazily constructed with
`labelerThreshold` and queried; `providerLabels` stands for the ordered label
list ML Kit returns, and `maxResults` (default 0, meaning unlimited) truncates
it. Each returned label's `index` field equals its list position
(`withIndex`), so the payload is modelled as the ordered label list. -/
def classifyImage (st : ModuleState) (imageLoads : Bool) (imageUri : String)
    (options : ClassificationOptions) (providerLabels : List (String × ℚ)) :
    CallEffect ClassificationResult :=
  if imageLoads then
    let maxResults := options.maxResults.getD 0
    let taken := if 0 < maxResults then providerLabels.take maxResults.toNat else providerLabels
    { state := { st with imageLabeler := true }
      providerQueried := true
      outcome := .resolved { success := true, labels := taken, error := none } }
  else
    { state := st
      providerQueried := false
      outcome := .rejected ("image_load_failed") ("Failed to load image from URI: " ++ imageUri) }

/-- `describeImage` (lines 111-175). The describer handle is constructed and
memoized before the bitmap load; an image-load failure then rejects with code
`image_load_failed` without querying the provider. Otherwise the provider's
feature status is consulted; `inference` stands for the provider's
`runInference` settlement and is consulted only when the status is
`available`. (The `$status` text interpolated into the not-available message
is provider-defined and abstracted away.) -/
def describeImage (st : ModuleState) (imageLoads : Bool) (imageUri : String)
    (status : FeatureStatus) (inference : NativeOutcome String) :
    CallEffect DescriptionResult :=
  let st1 := { st with imageDescriber := true }
  if imageLoads then
    match status with
    | .available =>
      match inference with
      | .resolved text =>
        { state := st1
          providerQueried := true
          outcome := .resolved
            { success := true, description := text, error := none
              modelStatus := some ("available") } }
      | .rejected _ message =>
        { state := st1
          providerQueried := true
          outcome := .rejected ("description_failed") ("Failed inference: " ++ message) }
    | .downloadable =>
      { state := st1
        providerQueried := true
        outcome := .resolved
          { success := false, description := ""
            error := some ("Model needs to be downloaded. Call downloadDescriptionModel() first.")
            modelStatus := some ("downloadable") } }
    | .downloading =>
      { state := st1
        providerQueried := true
        outcome := .resolved
          { success := false, description := ""
            error := some ("Model needs to be downloaded. Call downloadDescriptionModel() first.")
            modelStatus := some ("downloading") } }
    | .unavailable =>
      { state := st1
        providerQueried := true
        outcome := .resolved
          { success := false, description := ""
            error := some ("Model is not available")
            modelStatus := some ("not_available") } }
  else
    { state := st1
      providerQueried := false
      outcome := .rejected ("image_load_failed") ("Failed to load image from URI: " ++ imageUri) }

/-- What `downloadDescriptionModel` (lines 207-258) does after observing the
feature status. -/
inductive DownloadAction where
  | resolveTrueNoDownload
  | rejectNotDownloadable
  | callDownloadFeature
deriving DecidableEq

/-- Status dispatch of `downloadDescriptionModel` (lines 218-250): `AVAILABLE`
resolves `true` at once without touching `downloadFeature`; a status that is
neither `DOWNLOADABLE` nor `DOWNLOADING` rejects; otherwise - including an
already `DOWNLOADING` model - `downloadFeature` is invoked on the provider. -/
def downloadDispatch : FeatureStatus → DownloadAction
  | .available => .resolveTrueNoDownload
  | .downloadable => .callDownloadFeature
  | .downloading => .callDownloadFeature
  | .unavailable => .rejectNotDownloadable

/-- Terminal result reported by the provider's `DownloadCallback`. -/
inductive ProviderDownload where
  | completed
  | failed (message : String)
deriving DecidableEq

/-- The settlement of the native `downloadDescriptionModel`: completion
resolves `true`; failure rejects with code `download_failed`
(lines 228-235); a non-downloadable status rejects with the same code. -/
def downloadDescriptionModel (status : FeatureStatus) (dl : ProviderDownload) :
    NativeOutcome Bool :=
  match downloadDispatch status with
  | .resolveTrueNoDownload => .resolved true
  | .rejectNotDownloadable => .rejected ("download_failed") ("Model cannot be downloaded.")
  | .callDownloadFeature =>
    match dl with
    | .completed => .resolved true
    | .failed message => .rejected ("download_failed") ("Model download failed: " ++ message)

/-- A payload on the `ImageDescriptionModelDownloadProgress` event channel: a
partial map that may carry any of the three fields declared in the TypeScript
`ModelDownloadProgress` interface. -/
structure ProgressEvent where
  progress : Option ℚ
  downloadedBytes : Option Int
  totalBytes : Option Int
deriving DecidableEq

/-- `onDownloadStarted` (lines 244-249) emits only `totalBytes`. -/
def onDownloadStartedEvent (bytesToDownload : Int) : ProgressEvent :=
  { progress := none, downloadedBytes := none, totalBytes := some bytesToDownload }

/-- `onDownloadProgress` (lines 237-242) emits only `downloadedBytes`. -/
def onDownloadProgressEvent (totalBytesDownloaded : Int) : ProgressEvent :=
  { progress := none, downloadedBytes := some totalBytesDownloaded, totalBytes := none }

/-- The events the native layer can emit on the progress channel: exactly the
two shapes above. -/
inductive Emitted : ProgressEvent → Prop where
  | started (b : Int) : Emitted (onDownloadStartedEvent b)
  | chunk (n : Int) : Emitted (onDownloadProgressEvent n)

end Android

namespace Ts

/-- The facade `classifyImage` (src/index.tsx, lines 73-90): a resolved native
payload is passed through; a rejection is caught and converted to a resolved
`{success: false, labels: [], error: message}`. -/
def classifyImage (native : NativeOutcome ClassificationResult) : ClassificationResult :=
  match native with
  | .resolved r => r
  | .rejected code message =>
    { success := false, labels := [], error := some (bridgeErrorMessage code message) }

/-- The fixed result the facade `describeImage` returns on iOS before any
native call (lines 123-131). -/
def iosNotSupported : DescriptionResult :=
  { success := false
    description := ""
    error := some ("Image description is not available on iOS. Use classifyImage() for classification labels.")
    modelStatus := some ("not_supported") }

/-- The facade `describeImage` (lines 118-145): on iOS it returns
`iosNotSupported` without invoking the native module (the second component
records whether the native module was invoked); otherwise the native
settlement is passed through, rejections being caught into a resolved
failure. -/
def describeImage (platformIsIos : Bool) (_imageUri : String)
    (native : NativeOutcome DescriptionResult) : DescriptionResult × Bool :=
  if platformIsIos then (iosNotSupported, false)
  else
    match native with
    | .resolved r => (r, true)
    | .rejected code message =>
      ({ success := false, description := ""
         error := some (bridgeErrorMessage code message), modelStatus := none }, true)

/-- The facade `downloadDescriptionModel` (lines 186-218): on iOS it resolves
`false`; a native rejection is caught (`console.error`) and the call resolves
`false`; the facade promise itself therefore never rejects. -/
def downloadDescriptionModel (platformIsIos : Bool) (native : NativeOutcome Bool) :
    NativeOutcome Bool :=
  if platformIsIos then .resolved false
  else
    match native with
    | .resolved b => .resolved b
    | .rejected _ _ => .resolved false

/-- The argument the facade passes to the caller's `onProgress` callback:
`event.progress` (lines 196-204). -/
def onProgressArg (event : Android.ProgressEvent) : Option ℚ := event.progress

end Ts

/-- A list permuted from a two-element list is that list or its swap. -/
theorem perm_pair {α : Type} {x y : α} {l : List α} (h : l.Perm [x, y]) :
    l = [x, y] ∨ l = [y, x] := by
  rcases l with _ | ⟨a, _ | ⟨b, _ | ⟨c, rest⟩⟩⟩
  · exact absurd h.length_eq (by simp)
  · exact absurd h.length_eq (by simp)
  · have ha : a ∈ [x, y] := h.mem_iff.mp (by simp)
    rcases List.mem_pair.mp ha with rfl | rfl
    · have hb : [b].Perm [y] := (List.perm_cons a).mp h
      have hby : b = y := by simpa using hb.mem_iff.mp (by simp)
      subst hby; exact Or.inl rfl
    · have hb : [b].Perm [x] := (List.perm_cons a).mp (h.trans (List.Perm.swap a x []))
      have hbx : b = x := by simpa using hb.mem_iff.mp (by simp)
      subst hbx; exact Or.inr rfl
  · exact absurd h.length_eq (by simp)

/-- C1 counterexample: with Vision (primary) label ("aa", 0.5) and ML Kit
(secondary) label ("bb", 0.5) - a confidence tie - the iOS call can settle
with the secondary label first as well as with the primary label first: both
orders are reachable (the merged `NSMutableDictionary` is enumerated in an
unspecified order and the final comparator compares confidences only), so the
claimed primary-source-first stable tie-break does not hold. -/
theorem C1_tiebreak_counterexample :
    Ios.ClassifyResponse true ("photo.jpg") (mkRat 0 1) (fun _ _ => true) true
      [("aa", mkRat 1 2)] [("bb", mkRat 1 2)] 0
      (.resolved { success := true, labels := [("bb", mkRat 1 2), ("aa", mkRat 1 2)], error := none }) ∧
    Ios.ClassifyResponse true ("photo.jpg") (mkRat 0 1) (fun _ _ => true) true
      [("aa", mkRat 1 2)] [("bb", mkRat 1 2)] 0
      (.resolved { success := true, labels := [("aa", mkRat 1 2), ("bb", mkRat 1 2)], error := none }) ∧
    ([("bb", mkRat 1 2), ("aa", mkRat 1 2)] : List (String × ℚ))
      ≠ [("aa", mkRat 1 2), ("bb", mkRat 1 2)] := by
  unfold Ios.ClassifyResponse
  refine ⟨?_, ?_, by decide⟩
  · exact if_pos rfl ▸ ⟨[("bb", mkRat 1 2), ("aa", mkRat 1 2)], by decide, by decide⟩
  · exact if_pos rfl ▸ ⟨[("aa", mkRat 1 2), ("bb", mkRat 1 2)], by decide, by decide⟩

/-- C1 (amended): the merge engine is deterministic only up to the unspecified
dictionary enumeration order. For every pair of label source lists, every
option set and every enumeration of the merged dictionary, the output is
sorted by confidence descending; when `maxResults ≤ 0` it is a permutation of
the merged set; when `0 < maxResults` it is the `maxResults`-prefix of the
sorted enumeration. Equal-confidence labels appear in enumeration order, not
primary-source-first. -/
theorem C1_amended (minimumConfidence : ℚ) (meets : String → ℚ → Bool)
    (useMlKit : Bool) (vision mlkit : List (String × ℚ)) (maxResults : Int)
    (enum : List (String × ℚ))
    (h : enum.Perm (Ios.mergedDict minimumConfidence meets useMlKit vision mlkit)) :
    (Ios.finalLabels enum maxResults).Sorted Ios.confDesc ∧
    (maxResults ≤ 0 →
      (Ios.finalLabels enum maxResults).Perm
        (Ios.mergedDict minimumConfidence meets useMlKit vision mlkit)) ∧
    (0 < maxResults →
      Ios.finalLabels enum maxResults
        = (enum.insertionSort Ios.confDesc).take maxResults.toNat) := by
  refine ⟨?_, ?_, ?_⟩
  · unfold Ios.finalLabels
    by_cases hm : 0 < maxResults
    · simp only [if_pos hm]
      exact (List.sorted_insertionSort Ios.confDesc enum).sublist (List.take_sublist _ _)
    · simp only [if_neg hm]
      exact List.sorted_insertionSort Ios.confDesc enum
  · intro hle
    unfold Ios.finalLabels
    simp only [if_neg (not_lt.mpr hle)]
    exact (List.perm_insertionSort Ios.confDesc enum).trans h
  · intro hm
    unfold Ios.finalLabels
    simp only [if_pos hm]

/-- Witness for C1 (amended) at a concrete input. -/
theorem C1_amended_witness :
    ([(("x" : String), mkRat 1 1)]).Perm
      (Ios.mergedDict (mkRat 0 1) (fun _ _ => true) true [("x", mkRat 1 1)] []) ∧
    ((Ios.finalLabels [(("x" : String), mkRat 1 1)] 0).Sorted Ios.confDesc ∧
      ((0 : Int) ≤ 0 →
        (Ios.finalLabels [(("x" : String), mkRat 1 1)] 0).Perm
          (Ios.mergedDict (mkRat 0 1) (fun _ _ => true) true [("x", mkRat 1 1)] [])) ∧
      ((0 : Int) < 0 →
        Ios.finalLabels [(("x" : String), mkRat 1 1)] 0
          = (([(("x" : String), mkRat 1 1)]).insertionSort Ios.confDesc).take (Int.toNat 0))) :=
  ⟨by decide,
    C1_amended (mkRat 0 1) (fun _ _ => true) true [("x", mkRat 1 1)] [] 0
      [("x", mkRat 1 1)] (by decide)⟩

/-- C2: merging S1 = [(a, 0.9), (b, 0.4)] with S2 = [(a, 0.95), (c, 0.6)] at
`minimumConfidence = 0.5` yields exactly [(a, 0.95), (c, 0.6)] (ranks 0 and 1
being the list positions), for every enumeration order of the merged
dictionary: b is discarded before merging and a keeps the strictly higher of
its two confidences. -/
theorem C2_merge_example (enum : List (String × ℚ))
    (h : enum.Perm (Ios.mergedDict (mkRat 1 2) (fun _ _ => true) true
        [("a", mkRat 9 10), ("b", mkRat 2 5)] [("a", mkRat 19 20), ("c", mkRat 3 5)])) :
    Ios.finalLabels enum 0 = [("a", mkRat 19 20), ("c", mkRat 3 5)] := by
  have hd : Ios.mergedDict (mkRat 1 2) (fun _ _ => true) true
      [("a", mkRat 9 10), ("b", mkRat 2 5)] [("a", mkRat 19 20), ("c", mkRat 3 5)]
      = [("a", mkRat 19 20), ("c", mkRat 3 5)] := by decide
  rw [hd] at h
  rcases perm_pair h with h1 | h1 <;> subst h1 <;> decide

/-- Witness for C2 at the insertion-order enumeration. -/
theorem C2_merge_example_witness :
    ([("a", mkRat 19 20), ("c", mkRat 3 5)] : List (String × ℚ)).Perm
      (Ios.mergedDict (mkRat 1 2) (fun _ _ => true) true
        [("a", mkRat 9 10), ("b", mkRat 2 5)] [("a", mkRat 19 20), ("c", mkRat 3 5)]) ∧
    Ios.finalLabels [("a", mkRat 19 20), ("c", mkRat 3 5)] 0
      = [("a", mkRat 19 20), ("c", mkRat 3 5)] :=
  ⟨by decide, C2_merge_example [("a", mkRat 19 20), ("c", mkRat 3 5)] (by decide)⟩

/-- C3 failing input: the Android `classifyImage` never reads
`minimumConfidence`. With options `{minimumConfidence := 0.9}` (and the
default labeler threshold 0.5) a provider label ("dog", 0.6) is returned
inside a successful result even though 0.6 < 0.9 - contradicting the repo's
own API documentation that `minimumConfidence` filters results. -/
theorem C3_android_ignores_minimumConfidence :
    (Android.classifyImage { imageLabeler := false, imageDescriber := false } true
        ("photo.jpg") { minimumConfidence := some (mkRat 9 10) }
        [("dog", mkRat 3 5)]).outcome
      = .resolved { success := true, labels := [("dog", mkRat 3 5)], error := none } ∧
    Android.labelerThreshold { minimumConfidence := some (mkRat 9 10) } = mkRat 1 2 ∧
    mkRat 3 5 < mkRat 9 10 := by
  refine ⟨by decide, by decide, by decide⟩

/-- C4 counterexample: a `downloadDescriptionModel` call that observes status
DOWNLOADING falls through the guard and invokes `downloadFeature` on the
provider again - it is neither rejected nor coalesced by the module. -/
theorem C4_downloading_counterexample :
    Android.downloadDispatch Android.FeatureStatus.downloading
      = Android.DownloadAction.callDownloadFeature ∧
    Android.DownloadAction.callDownloadFeature ≠ Android.DownloadAction.resolveTrueNoDownload ∧
    Android.DownloadAction.callDownloadFeature ≠ Android.DownloadAction.rejectNotDownloadable := by
  refine ⟨rfl, by decide, by decide⟩

/-- C4 (amended): only AVAILABLE short-circuits, resolving `true` without
touching `downloadFeature`; both DOWNLOADABLE and DOWNLOADING lead to a fresh
`downloadFeature` call on the provider (the module has no single-flight guard
and delegates any deduplication to the provider); any other status rejects. -/
theorem C4_amended :
    (∀ dl, Android.downloadDescriptionModel Android.FeatureStatus.available dl
      = .resolved true) ∧
    Android.downloadDispatch Android.FeatureStatus.downloadable
      = Android.DownloadAction.callDownloadFeature ∧
    Android.downloadDispatch Android.FeatureStatus.downloading
      = Android.DownloadAction.callDownloadFeature ∧
    Android.downloadDispatch Android.FeatureStatus.unavailable
      = Android.DownloadAction.rejectNotDownloadable := by
  exact ⟨fun _ => rfl, rfl, rfl, rfl⟩

/-- C5 counterexample: the facade `downloadDescriptionModel` catches the
native DownloadFailed rejection and settles as resolved `false`: the failure
does not propagate to the caller as a rejection. -/
theorem C5_facade_catches_counterexample :
    Ts.downloadDescriptionModel false
        (.rejected ("download_failed") ("Model download failed: io error"))
      = .resolved false ∧
    (NativeOutcome.resolved false : NativeOutcome Bool)
      ≠ .rejected ("download_failed") ("Model download failed: io error") := by
  refine ⟨rfl, by decide⟩

/-- C5 (amended): the facade never settles as a rejection, on either platform
and for every native settlement; DownloadFailed/DownloadRejected native
rejections are converted to a resolved `false`. The rejection exists only at
the native Android layer, whose `downloadDescriptionModel` rejects with code
`download_failed` for a failed download and for a non-downloadable status. -/
theorem C5_amended :
    (∀ (p : Bool) (native : NativeOutcome Bool),
      ∃ b, Ts.downloadDescriptionModel p native = .resolved b) ∧
    (∀ code message, Ts.downloadDescriptionModel false (.rejected code message)
      = .resolved false) ∧
    (∀ message, Android.downloadDescriptionModel Android.FeatureStatus.downloadable
        (.failed message)
      = .rejected ("download_failed") ("Model download failed: " ++ message)) ∧
    (∀ dl, Android.downloadDescriptionModel Android.FeatureStatus.unavailable dl
      = .rejected ("download_failed") ("Model cannot be downloaded.")) := by
  refine ⟨?_, fun _ _ => rfl, fun _ => rfl, fun _ => rfl⟩
  intro p native
  cases p <;> cases native <;> exact ⟨_, rfl⟩

/-- C6: on iOS the facade `describeImage` resolves - never rejects - with
`success := false` and `modelStatus = "not_supported"` for every image
locator and for every would-be native settlement, and the native module is
not invoked at all; the iOS native `describeImage`, were it reached, resolves
the very same shape. -/
theorem C6_describe_not_supported :
    (∀ (imageUri : String) (native : NativeOutcome DescriptionResult),
      Ts.describeImage true imageUri native = (Ts.iosNotSupported, false)) ∧
    Ts.iosNotSupported.success = false ∧
    Ts.iosNotSupported.modelStatus = some ("not_supported") ∧
    Ios.describeImage = .resolved Ts.iosNotSupported := by
  exact ⟨fun _ _ => rfl, rfl, rfl, rfl⟩

/-- C7: when the observed status is AVAILABLE, the native
`downloadDescriptionModel` resolves `true` at once: the dispatch never reaches
`downloadFeature`, the settlement is resolved `true` regardless of any
provider download result, and the facade passes the `true` through. -/
theorem C7_available_idempotent :
    Android.downloadDispatch Android.FeatureStatus.available
      = Android.DownloadAction.resolveTrueNoDownload ∧
    Android.DownloadAction.resolveTrueNoDownload
      ≠ Android.DownloadAction.callDownloadFeature ∧
    (∀ dl, Android.downloadDescriptionModel Android.FeatureStatus.available dl
      = .resolved true) ∧
    Ts.downloadDescriptionModel false (.resolved true) = .resolved true := by
  exact ⟨rfl, by decide, fun _ => rfl, rfl⟩

/-- C8 counterexample: Android `describeImage` constructs and memoizes the
describer handle before attempting the image load, so on a load failure the
memoized handle is not as it was before the call: it changes from absent to
constructed (even though no provider is queried). -/
theorem C8_describer_constructed_counterexample :
    (Android.describeImage { imageLabeler := false, imageDescriber := false } false
        ("/missing.jpg") Android.FeatureStatus.available (.resolved ("a dog"))).state
      = { imageLabeler := false, imageDescriber := true } ∧
    ({ imageLabeler := false, imageDescriber := true } : Android.ModuleState)
      ≠ { imageLabeler := false, imageDescriber := false } ∧
    (Android.describeImage { imageLabeler := false, imageDescriber := false } false
        ("/missing.jpg") Android.FeatureStatus.available (.resolved ("a dog"))).providerQueried
      = false := by
  refine ⟨rfl, by decide, rfl⟩

/-- C8 (amended): on an image-load failure neither operation queries a
provider and both reject with code `image_load_failed`; `classifyImage`
leaves the provider handles exactly as they were, while `describeImage`
always sets the memoized describer handle before the load is attempted. -/
theorem C8_amended (st : Android.ModuleState) (imageUri : String)
    (options : Android.ClassificationOptions) (providerLabels : List (String × ℚ))
    (status : Android.FeatureStatus) (inference : NativeOutcome String) :
    (Android.classifyImage st false imageUri options providerLabels).state = st ∧
    (Android.classifyImage st false imageUri options providerLabels).providerQueried = false ∧
    (Android.classifyImage st false imageUri options providerLabels).outcome
      = .rejected ("image_load_failed") ("Failed to load image from URI: " ++ imageUri) ∧
    (Android.describeImage st false imageUri status inference).providerQueried = false ∧
    (Android.describeImage st false imageUri status inference).outcome
      = .rejected ("image_load_failed") ("Failed to load image from URI: " ++ imageUri) ∧
    (Android.describeImage st false imageUri status inference).state
      = { st with imageDescriber := true } := by
  exact ⟨rfl, rfl, rfl, rfl, rfl, rfl⟩

/-- C9 counterexample: for a nonexistent path the facade does resolve with
`success := false` and empty labels, but the error string is the native
rejection message "Failed to load image from URI: ..." - the token
`image_load_failed` is only the separately-carried rejection code and does not
occur in the error string. -/
theorem C9_error_string_counterexample :
    Ts.classifyImage
        (Android.classifyImage { imageLabeler := false, imageDescriber := false } false
          ("/nonexistent.jpg") {} []).outcome
      = { success := false, labels := [],
          error := some ("Failed to load image from URI: /nonexistent.jpg") } ∧
    mentions ("image_load_failed") ("Failed to load image from URI: /nonexistent.jpg")
      = false := by
  refine ⟨by decide, by decide⟩

/-- C9 (amended): for every module state, options, provider output and
locator, a failed image load makes the facade `classifyImage` resolve - it
returns a plain result value and never rejects - with `success := false`,
empty labels and error exactly "Failed to load image from URI: " ++ uri (the
rejection code `image_load_failed` is carried separately, not in the error
string); on iOS the native settlement on a load failure is likewise a
rejection with code `image_load_failed` and message
"Failed to load image from path: " ++ path. -/
theorem C9_amended (st : Android.ModuleState) (imageUri : String)
    (options : Android.ClassificationOptions) (providerLabels : List (String × ℚ))
    (minimumConfidence : ℚ) (meets : String → ℚ → Bool) (useMlKit : Bool)
    (vision mlkit : List (String × ℚ)) (maxResults : Int) :
    Ts.classifyImage (Android.classifyImage st false imageUri options providerLabels).outcome
      = { success := false, labels := [],
          error := some ("Failed to load image from URI: " ++ imageUri) } ∧
    Ios.ClassifyResponse false imageUri minimumConfidence meets useMlKit vision mlkit maxResults
      (.rejected ("image_load_failed") ("Failed to load image from path: " ++ imageUri)) := by
  exact ⟨rfl, rfl⟩

/-- C10: every event the native layer emits on the download-progress channel
carries exactly one of `totalBytes` (the started event) or `downloadedBytes`
(the repeated progress events), and never the `progress` field declared in
`ModelDownloadProgress`; consequently the facade always invokes the caller's
`onProgress` callback with `event.progress = none` (undefined). -/
theorem C10_progress_events (e : Android.ProgressEvent) (h : Android.Emitted e) :
    ((e.totalBytes.isSome = true ∧ e.downloadedBytes = none) ∨
      (e.downloadedBytes.isSome = true ∧ e.totalBytes = none)) ∧
    e.progress = none ∧ Ts.onProgressArg e = none := by
  cases h with
  | started b => exact ⟨Or.inl ⟨rfl, rfl⟩, rfl, rfl⟩
  | chunk n => exact ⟨Or.inr ⟨rfl, rfl⟩, rfl, rfl⟩

/-- Witness for C10 at the download-started event for 1024 bytes. -/
theorem C10_progress_events_witness :
    (((Android.onDownloadStartedEvent 1024).totalBytes.isSome = true ∧
        (Android.onDownloadStartedEvent 1024).downloadedBytes = none) ∨
      ((Android.onDownloadStartedEvent 1024).downloadedBytes.isSome = true ∧
        (Android.onDownloadStartedEvent 1024).totalBytes = none)) ∧
    (Android.onDownloadStartedEvent 1024).progress = none ∧
    Ts.onProgressArg (Android.onDownloadStartedEvent 1024) = none :=
  C10_progress_events (Android.onDownloadStartedEvent 1024) (Android.Emitted.started 1024)
